import Mathlib

/-!
Verification of the project-type detector and build orchestrator of the
Universal APK Builder repository, as a shallow embedding in Lean 4.

Filesystem access (existsSync / readdirSync / readFileSync + JSON.parse) is
modelled by an abstract read-only oracle `FS`; a `none` result of a fallible
oracle field stands for the corresponding call throwing.  Machine integers do
not overflow in the modelled code paths (confidence scores are small bounded
sums), so confidence is carried as `Nat` exactly as the source accumulates it.
-/

set_option autoImplicit false

namespace ApkBuilder

/-- Project types, from src/core/types.ts (`ProjectType`). -/
inductive ProjectType where
  | web
  | ndk
  | maui
  | reactnative
  | unity
  | unknown
  deriving DecidableEq, Repr

/-- Parsed package.json as far as the detectors inspect it: the key sets of
`dependencies` and `devDependencies` (a listed name stands for a key with a
truthy value, which is what `pkg.dependencies?.[name]` tests). -/
structure Pkg where
  dependencies : List String
  devDependencies : List String
  deriving Repr, DecidableEq

/-- `pkg.dependencies?.[n] || pkg.devDependencies?.[n]` as used by the web and
react-native detectors. -/
def Pkg.hasDep (p : Pkg) (n : String) : Bool :=
  p.dependencies.contains n || p.devDependencies.contains n

/-- The three substring probes the MAUI detector applies to a .csproj file:
`Microsoft.Maui`/`UseMaui`, `Xamarin.Forms`, and a `*-android` target. -/
structure Csproj where
  isMaui : Bool
  isXamarin : Bool
  isAndroidTarget : Bool
  deriving Repr, DecidableEq

/-- Abstract read-only filesystem oracle.  `readdir dir recursive` returns the
listed entries or `none` when `readdirSync` throws; `pkgJson p` is the result
of reading and JSON-parsing a package.json at `p` (`none` = read/parse threw);
`csproj p` likewise for a .csproj; `unityManifest p` parses Packages/manifest.json
and reports whether `dependencies['com.unity.modules.core']` is truthy. -/
structure FS where
  pathExists : String → Bool
  readdir : String → Bool → Option (List String)
  pkgJson : String → Option Pkg
  csproj : String → Option Csproj
  unityManifest : String → Option Bool

/-- `path.join(a, b)`. -/
def pjoin (a b : String) : String := a ++ "/" ++ b

/-- Per-heuristic detection result (src/detector/heuristics/*, interface
`DetectionResult`). -/
structure DetectionResult where
  type : ProjectType
  confidence : Nat
  detectedFiles : List String
  deriving Repr, DecidableEq

/-- The common tail of every heuristic: zero total evidence yields `null`,
otherwise the accumulated confidence is clamped with `Math.min(confidence, 100)`. -/
def finishDetection (t : ProjectType) (confidence : Nat) (files : List String) :
    Option DetectionResult :=
  if confidence = 0 then none else some ⟨t, min confidence 100, files⟩

/-- The four index.html locations probed by the web detector. -/
def webIndexPaths (root : String) : List String :=
  [pjoin root "index.html",
   pjoin (pjoin root "public") "index.html",
   pjoin (pjoin root "src") "index.html",
   pjoin (pjoin root "dist") "index.html"]

/-- Web framework dependency names that raise web confidence. -/
def webFrameworks : List String :=
  ["vue", "react", "angular", "svelte", "solid-js", "preact"]

/-- Directories typical of web projects. -/
def webDirs : List String :=
  ["public", "static", "assets", "src", "dist", "build"]

/-- src/detector/heuristics/web.ts, `detectWebProject`.  Returns `none` both
for zero evidence and for the react-native/expo exclusion rule. -/
def detectWebProject (fs : FS) (root : String) : Option DetectionResult :=
  let idx := (webIndexPaths root).find? fs.pathExists
  let conf1 : Nat := match idx with | some _ => 40 | none => 0
  let files1 : List String := match idx with | some p => [p] | none => []
  let pkgPath := pjoin root "package.json"
  let pkgStep : Option (Nat × List String) :=
    if fs.pathExists pkgPath then
      match fs.pkgJson pkgPath with
      | some pkg =>
        if pkg.hasDep "react-native" then none
        else if pkg.hasDep "expo" then none
        else
          let fwBonus := if webFrameworks.any pkg.hasDep then 15 else 0
          some (20 + fwBonus, [pkgPath])
      | none => some (0, [])
    else some (0, [])
  match pkgStep with
  | none => none
  | some (conf2, files2) =>
    let conf3 : Nat :=
      match fs.readdir root true with
      | some files =>
        (if (files.filter (fun f => f.endsWith ".html")).length > 0 then 10 else 0) +
        (if (files.filter (fun f =>
            f.endsWith ".css" || f.endsWith ".scss" || f.endsWith ".less")).length > 0
          then 5 else 0) +
        (if (files.filter (fun f =>
            f.endsWith ".js" || f.endsWith ".ts" || f.endsWith ".jsx" ||
            f.endsWith ".tsx")).length > 0
          then 5 else 0)
      | none => 0
    let conf4 := ((webDirs.filter (fun d => fs.pathExists (pjoin root d))).length) * 2
    finishDetection ProjectType.web (conf1 + conf2 + conf3 + conf4) (files1 ++ files2)

/-- Android.mk locations probed by the NDK detector. -/
def ndkAndroidMkPaths (root : String) : List String :=
  [pjoin root "Android.mk", pjoin (pjoin root "jni") "Android.mk"]

/-- Application.mk locations probed by the NDK detector. -/
def ndkApplicationMkPaths (root : String) : List String :=
  [pjoin root "Application.mk", pjoin (pjoin root "jni") "Application.mk"]

/-- src/detector/heuristics/ndk.ts, `detectNdkProject`. -/
def detectNdkProject (fs : FS) (root : String) : Option DetectionResult :=
  let cmake := pjoin root "CMakeLists.txt"
  let s1 : Nat × List String := if fs.pathExists cmake then (35, [cmake]) else (0, [])
  let s2 : Nat × List String :=
    match (ndkAndroidMkPaths root).find? fs.pathExists with
    | some p => (30, [p])
    | none => (0, [])
  let s3 : Nat × List String :=
    match (ndkApplicationMkPaths root).find? fs.pathExists with
    | some p => (15, [p])
    | none => (0, [])
  let c4 : Nat := if fs.pathExists (pjoin root "jni") then 15 else 0
  let s5 : Nat × List String :=
    match fs.readdir root true with
    | some files =>
      let cFiles := files.filter (fun f =>
        f.endsWith ".c" || f.endsWith ".cpp" || f.endsWith ".cc" || f.endsWith ".cxx")
      let headerFiles := files.filter (fun f =>
        f.endsWith ".h" || f.endsWith ".hpp" || f.endsWith ".hxx")
      let cc := if cFiles.length > 0 then min (cFiles.length * 5) 25 else 0
      let hc := if headerFiles.length > 0 then min (headerFiles.length * 2) 10 else 0
      (cc + hc, (cFiles.take 5).map (pjoin root))
    | none => (0, [])
  finishDetection ProjectType.ndk (s1.1 + s2.1 + s3.1 + c4 + s5.1)
    (s1.2 ++ s2.2 ++ s3.2 ++ s5.2)

/-- Confidence contribution of one .csproj file in the MAUI detector. -/
def csprojConf (fs : FS) (root : String) (name : String) : Nat :=
  match fs.csproj (pjoin root name) with
  | some c =>
    (if c.isMaui then 50 else 0) + (if c.isXamarin then 40 else 0) +
    (if c.isAndroidTarget then 20 else 0)
  | none => 0

/-- MauiProgram.cs locations probed by the MAUI detector. -/
def mauiProgramPaths (root : String) : List String :=
  [pjoin root "MauiProgram.cs", pjoin root "MAUIProgram.cs"]

/-- src/detector/heuristics/maui.ts, `detectMauiProject`.  A throwing
recursive readdir aborts with `null`; so does an empty .csproj list. -/
def detectMauiProject (fs : FS) (root : String) : Option DetectionResult :=
  match fs.readdir root true with
  | none => none
  | some files =>
    let csprojFiles := files.filter (fun f => f.endsWith ".csproj")
    if csprojFiles.length = 0 then none
    else
      let f1 := csprojFiles.map (pjoin root)
      let c1 := (csprojFiles.map (csprojConf fs root)).sum
      let s2 : Nat × List String :=
        match (mauiProgramPaths root).find? fs.pathExists with
        | some p => (30, [p])
        | none => (0, [])
      let c3 : Nat :=
        if fs.pathExists (pjoin (pjoin root "Platforms") "Android") then 15 else 0
      let c4 : Nat :=
        match fs.readdir root true with
        | some files2 =>
          let csFiles := files2.filter (fun f => f.endsWith ".cs")
          if csFiles.length > 0 then min csFiles.length 10 else 0
        | none => 0
      finishDetection ProjectType.maui (c1 + s2.1 + c3 + c4) (f1 ++ s2.2)

/-- The package.json-derived signals of the react-native detector: the
react-native dependency (+50), the expo dependency (+40), and the capped count
of `@react-native-community/` / `react-native-` packages. -/
def rnBaseSignals (pkg : Pkg) (pkgPath : String) : Nat × List String :=
  let s1 : Nat × List String :=
    if pkg.hasDep "react-native" then (50, [pkgPath]) else (0, [])
  let s2 : Nat × List String :=
    if pkg.hasDep "expo" then (40, [pkgPath]) else (0, [])
  let deps := (pkg.dependencies ++ pkg.devDependencies).dedup
  let rnPackages := deps.filter (fun k =>
    k.startsWith "@react-native-community/" || k.startsWith "react-native-")
  let c3 := if rnPackages.length > 0 then min (rnPackages.length * 5) 20 else 0
  (s1.1 + s2.1 + c3, s1.2 ++ s2.2)

/-- The filesystem marker signals of the react-native detector, probed only
after the package.json signals were found non-zero. -/
def rnMarkerSignals (fs : FS) (root : String) : Nat × List String :=
  let androidDir := pjoin root "android"
  let c4 : Nat :=
    if fs.pathExists androidDir then
      15 + (if fs.pathExists (pjoin androidDir "build.gradle") ||
               fs.pathExists (pjoin androidDir "build.gradle.kts")
            then 10 else 0)
    else 0
  let s5 : Nat × List String :=
    if fs.pathExists (pjoin root "app.json") then (10, [pjoin root "app.json"])
    else (0, [])
  let s6 : Nat × List String :=
    if fs.pathExists (pjoin root "app.config.js") then (10, [pjoin root "app.config.js"])
    else (0, [])
  let s7 : Nat × List String :=
    if fs.pathExists (pjoin root "metro.config.js") then (5, [pjoin root "metro.config.js"])
    else (0, [])
  let s8 : Nat × List String :=
    if fs.pathExists (pjoin root "eas.json") then (10, [pjoin root "eas.json"])
    else (0, [])
  (c4 + s5.1 + s6.1 + s7.1 + s8.1, s5.2 ++ s6.2 ++ s7.2 ++ s8.2)

/-- src/detector/heuristics/reactnative.ts, `detectReactNativeProject`.
A missing or unparsable package.json yields `null`; zero confidence from the
package.json signals yields `null` before the filesystem markers are probed. -/
def detectReactNativeProject (fs : FS) (root : String) : Option DetectionResult :=
  let pkgPath := pjoin root "package.json"
  if !fs.pathExists pkgPath then none
  else
    match fs.pkgJson pkgPath with
    | none => none
    | some pkg =>
      let base := rnBaseSignals pkg pkgPath
      if base.1 = 0 then none
      else
        let extra := rnMarkerSignals fs root
        some ⟨ProjectType.reactnative, min (base.1 + extra.1) 100, base.2 ++ extra.2⟩

/-- src/detector/heuristics/unity.ts, `detectUnityProject`. -/
def detectUnityProject (fs : FS) (root : String) : Option DetectionResult :=
  let psDir := pjoin root "ProjectSettings"
  let psAsset := pjoin psDir "ProjectSettings.asset"
  let s1 : Nat × List String :=
    if fs.pathExists psDir then
      if fs.pathExists psAsset then (60, [psAsset]) else (40, [])
    else (0, [])
  let assetsDir := pjoin root "Assets"
  let s2 : Nat × List String :=
    if fs.pathExists assetsDir then
      match fs.readdir assetsDir true with
      | some files =>
        let scenes := files.filter (fun f => f.endsWith ".unity")
        if scenes.length > 0 then (40, (scenes.take 3).map (pjoin assetsDir))
        else (25, [])
      | none => (25, [])
    else (0, [])
  let manifest := pjoin (pjoin root "Packages") "manifest.json"
  let s3 : Nat × List String :=
    if fs.pathExists manifest then
      (15 + (match fs.unityManifest manifest with
             | some true => 10
             | some false => 0
             | none => 0), [manifest])
    else (0, [])
  let c4 : Nat :=
    match fs.readdir root false with
    | some files => if (files.filter (fun f => f.endsWith ".meta")).length > 0 then 10 else 0
    | none => 0
  let c5 : Nat := if fs.pathExists (pjoin root "UserSettings") then 5 else 0
  finishDetection ProjectType.unity (s1.1 + s2.1 + s3.1 + c4 + c5) (s1.2 ++ s2.2 ++ s3.2)

/-- Canonical classification record (src/core/types.ts, `ProjectInfo`). -/
structure ProjectInfo where
  path : String
  type : ProjectType
  confidence : Nat
  detectedFiles : List String
  suggestedName : String
  deriving Repr, DecidableEq

/-- `name.replace(/[^a-zA-Z0-9]/g, '')`. -/
def sanitizeName (s : String) : String :=
  String.mk (s.data.filter Char.isAlphanum)

/-- src/detector/index.ts, `extractProjectName`: last path segment (an empty
final segment falls back to 'MeuApp'), sanitized to alphanumerics. -/
def extractProjectName (p : String) : String :=
  let parts := p.split (fun c => c = '/' || c = '\\')
  let name :=
    match parts.getLast? with
    | some n => if n = "" then "MeuApp" else n
    | none => "MeuApp"
  sanitizeName name

/-- A detector call's outcome as observed by the resolver loop: a thrown
exception (`Except.error`), `null`, or a completed result. -/
abbrev DetectorOutcome := Except Unit (Option DetectionResult)

/-- The resolver's collection loop: a thrown detector is caught and skipped,
a `null` is skipped, and a result is kept only when `result.confidence > 0`. -/
def collectResults : List DetectorOutcome → List DetectionResult
  | [] => []
  | Except.error _ :: rest => collectResults rest
  | Except.ok none :: rest => collectResults rest
  | Except.ok (some r) :: rest =>
    if r.confidence > 0 then r :: collectResults rest else collectResults rest

/-- Stable descending insertion for `results.sort((a, b) => b.confidence - a.confidence)`:
the inserted element (earlier in registration order than the already-sorted
tail) stays before every element of equal or lower confidence, matching the
stability of the JavaScript sort. -/
def insertByConfidence (r : DetectionResult) : List DetectionResult → List DetectionResult
  | [] => [r]
  | x :: xs =>
    if r.confidence < x.confidence then x :: insertByConfidence r xs
    else r :: x :: xs

/-- Stable sort by descending confidence. -/
def sortByConfidence : List DetectionResult → List DetectionResult
  | [] => []
  | x :: xs => insertByConfidence x (sortByConfidence xs)

/-- src/detector/index.ts, `detectProject`, parameterized by the outcome of
each registered detector call (the try/catch around each call is the
`Except.error` case of `collectResults`). -/
def detectProjectFrom (root : String) (outcomes : List DetectorOutcome) : ProjectInfo :=
  match sortByConfidence (collectResults outcomes) with
  | [] => ⟨root, ProjectType.unknown, 0, [], extractProjectName root⟩
  | best :: _ => ⟨root, best.type, best.confidence, best.detectedFiles, extractProjectName root⟩

/-- The five registered detectors in registration order; in the embedding each
concrete detector is a total function, so each outcome is `Except.ok`. -/
def detectorOutcomes (fs : FS) (root : String) : List DetectorOutcome :=
  [Except.ok (detectWebProject fs root),
   Except.ok (detectNdkProject fs root),
   Except.ok (detectMauiProject fs root),
   Except.ok (detectReactNativeProject fs root),
   Except.ok (detectUnityProject fs root)]

/-- src/detector/index.ts, `detectProject` over the abstract filesystem. -/
def detectProject (fs : FS) (root : String) : ProjectInfo :=
  detectProjectFrom root (detectorOutcomes fs root)

/-! ## Environment provider (src/core/environment.ts) -/

/-- src/core/types.ts, `OfflineEnvironment`: toolchain role → path. -/
structure OfflineEnvironment where
  JAVA_HOME : String
  ANDROID_HOME : String
  ANDROID_NDK_HOME : String
  GRADLE_USER_HOME : String
  GRADLE_HOME : String
  DOTNET_ROOT : String
  NODE_PATH : String
  NPM_CONFIG_CACHE : String
  UNITY_PATH : String
  deriving Repr, DecidableEq

/-- The `checks` array of `verifyEnvironment`: (role name, root path) pairs.
Note that only six of the nine `OfflineEnvironment` roots appear here. -/
def envChecks (env : OfflineEnvironment) : List (String × String) :=
  [("JDK", env.JAVA_HOME),
   ("Android SDK", env.ANDROID_HOME),
   ("Android NDK", env.ANDROID_NDK_HOME),
   ("Gradle Cache", env.GRADLE_USER_HOME),
   ("Node.js", env.NODE_PATH),
   ("dotnet SDK", env.DOTNET_ROOT)]

/-- Result of `verifyEnvironment`. -/
structure EnvCheck where
  valid : Bool
  missing : List String
  deriving Repr, DecidableEq

/-- The accumulation loop of `verifyEnvironment`: push the role name of every
check whose path fails `existsSync`. -/
def missingLoop (ex : String → Bool) : List (String × String) → List String
  | [] => []
  | c :: rest =>
    if ex c.2 then missingLoop ex rest else c.1 :: missingLoop ex rest

/-- src/core/environment.ts, `verifyEnvironment`, over the disk-existence
oracle `ex`.  `valid` is `missing.length === 0`. -/
def verifyEnvironment (ex : String → Bool) (env : OfflineEnvironment) : EnvCheck :=
  let missing := missingLoop ex (envChecks env)
  ⟨missing.length = 0, missing⟩

/-! ## Process invocation primitive (src/runners/base-pipeline.ts, `runCommand`) -/

/-- How a spawned child process concludes, as observed by `runCommand`'s event
handlers: either a `close` event carrying a possibly-null numeric exit code, or
an `error` event carrying a spawn-failure message.  The chunk lists are the
`data` events streamed on stdout/stderr before conclusion. -/
inductive ProcOutcome where
  | closed (stdoutChunks stderrChunks : List String) (code : Option Int)
  | spawnError (stdoutChunks stderrChunks : List String) (msg : String)
  deriving Repr, DecidableEq

/-- Captured output and exit code returned by `runCommand`. -/
structure CmdResult where
  stdout : String
  stderr : String
  code : Int
  deriving Repr, DecidableEq

/-- JavaScript `code || 0` on a number-or-null: null and 0 are falsy. -/
def jsCodeOrZero : Option Int → Int
  | some c => if c = 0 then 0 else c
  | none => 0

/-- src/runners/base-pipeline.ts, `runCommand`: resolves (never rejects) with
the accumulated output; a `close` event resolves with `code || 0`, an `error`
event appends the message to stderr and resolves with code 1. -/
def runCommand : ProcOutcome → CmdResult
  | ProcOutcome.closed outs errs code =>
    ⟨String.join outs, String.join errs, jsCodeOrZero code⟩
  | ProcOutcome.spawnError outs errs msg =>
    ⟨String.join outs, String.join errs ++ msg, 1⟩

/-! ## Gradle invocation (src/runners/base-pipeline.ts, `runGradle`) -/

/-- src/core/network.ts, `isOnline`: `dns.lookup('google.com')` resolving means
online; a thrown lookup means offline. -/
def isOnline (dnsLookup : Except Unit Unit) : Bool :=
  match dnsLookup with
  | Except.ok _ => true
  | Except.error _ => false

/-- `runGradle`'s argument list before the exception-path fallback:
`[task, '--no-daemon', '--stacktrace']`, plus `--offline` when offline. -/
def gradleArgs (task : String) (online : Bool) : List String :=
  [task, "--no-daemon", "--stacktrace"] ++ (if online then [] else ["--offline"])

/-- Result surfaced by `runGradle` for a completed `runCommand`. -/
structure GradleRes where
  success : Bool
  output : String
  deriving Repr, DecidableEq

/-- Map a `runCommand` conclusion to `runGradle`'s surfaced value.  The command
runner is abstract here (`Except.error` = the awaited invocation threw). -/
def surfaceGradle : Except String CmdResult → Except String GradleRes
  | Except.ok r => Except.ok ⟨r.code = 0, r.stdout ++ r.stderr⟩
  | Except.error e => Except.error e

/-- src/runners/base-pipeline.ts, `runGradle`, returning both the surfaced
outcome and the trace of `runCommand` argument lists actually invoked.
The connectivity probe runs first; offline forces `--offline`; a thrown
network-aware invocation while online is retried exactly once with
`--offline` appended (unless already present), and the retry's outcome is
surfaced; a thrown offline invocation is rethrown. -/
def runGradle (runner : List String → Except String CmdResult)
    (dnsLookup : Except Unit Unit) (task : String) :
    Except String GradleRes × List (List String) :=
  let online := isOnline dnsLookup
  let args := gradleArgs task online
  match runner args with
  | Except.ok r => (surfaceGradle (Except.ok r), [args])
  | Except.error e =>
    if online then
      let args2 := if args.contains "--offline" then args else args ++ ["--offline"]
      (surfaceGradle (runner args2), [args, args2])
    else (Except.error e, [args])

/-! ## Build results, pipelines and the orchestrator (src/core/orchestrator.ts) -/

/-- src/core/types.ts, `BuildResult`.  Wall-clock `buildTime` is modelled as a
plain field; the embedding carries 0 where the source stores elapsed
milliseconds, since real time is outside the model. -/
structure BuildResult where
  success : Bool
  apkPath : Option String
  aabPath : Option String
  errors : List String
  warnings : List String
  buildTime : Nat
  deriving Repr, DecidableEq

/-- src/core/types.ts, `BuildOptions` (the fields the modelled code reads). -/
structure BuildOptions where
  appName : String
  packageName : String
  signMode : Bool -- true = release, false = debug ('debug' | 'release')
  keystorePath : Option String
  keystorePassword : Option String
  keyAlias : Option String
  keyPassword : Option String
  deriving Repr, DecidableEq

/-- One pipeline's behavior for a given build, as observed by the orchestrator:
each stage either completes or throws (`Except.error` carries the message of
the thrown error, which the orchestrator's top-level catch converts). -/
structure PipelineBehavior where
  prepare : Except String Unit
  configure : Except String Unit
  build : Except String BuildResult
  sign : String → Except String String
  deriving Inhabited

/-- The stages (and the final output-placement step) the orchestrator can
invoke, recorded in invocation order. -/
inductive StageEvent where
  | prepare
  | configure
  | build
  | sign
  | place
  deriving Repr, DecidableEq

/-- String key of a project type in the orchestrator's pipeline map. -/
def typeKey : ProjectType → String
  | ProjectType.web => "web"
  | ProjectType.ndk => "ndk"
  | ProjectType.maui => "maui"
  | ProjectType.reactnative => "reactnative"
  | ProjectType.unity => "unity"
  | ProjectType.unknown => "unknown"

/-- Everything `BuildOrchestrator.build` consults: the disk oracle and offline
environment for verification, the project filesystem for detection, the
pipeline registry, and the output-placement step (mkdir+copy, which may
throw). -/
structure OrchWorld where
  diskExists : String → Bool
  env : OfflineEnvironment
  fs : FS
  pipelines : ProjectType → Option PipelineBehavior
  place : String → Except String String

/-- A failed `BuildResult` as constructed inline by the orchestrator. -/
def failResult (errs : List String) : BuildResult :=
  ⟨false, none, none, errs, [], 0⟩

/-- JavaScript string coercion of `result.apkPath!` when the field is absent. -/
def optStr : Option String → String
  | some s => s
  | none => "undefined"

/-- src/core/orchestrator.ts, `BuildOrchestrator.build`, returning the terminal
`BuildResult` together with the trace of pipeline stages invoked.  Environment
verification precedes everything; an invalid environment, an `unknown`
detection or a missing pipeline short-circuits before any stage; a stage that
throws is converted by the top-level catch into a single-error result; a
`build` stage result with `success:false` is returned as-is without invoking
`sign` or output placement. -/
def orchestratorBuild (w : OrchWorld) (root : String) :
    BuildResult × List StageEvent :=
  let envCheck := verifyEnvironment w.diskExists w.env
  if !envCheck.valid then
    (failResult ["SDKs faltando: " ++ String.intercalate ", " envCheck.missing], [])
  else
    let info := detectProject w.fs root
    if info.type = ProjectType.unknown then
      (failResult ["Tipo de projeto não reconhecido"], [])
    else
      match w.pipelines info.type with
      | none =>
        (failResult ["Pipeline não disponível para tipo: " ++ typeKey info.type], [])
      | some p =>
        match p.prepare with
        | Except.error e => (failResult [e], [StageEvent.prepare])
        | Except.ok _ =>
          match p.configure with
          | Except.error e => (failResult [e], [StageEvent.prepare, StageEvent.configure])
          | Except.ok _ =>
            match p.build with
            | Except.error e =>
              (failResult [e], [StageEvent.prepare, StageEvent.configure, StageEvent.build])
            | Except.ok r =>
              if !r.success then
                (r, [StageEvent.prepare, StageEvent.configure, StageEvent.build])
              else
                match p.sign (optStr r.apkPath) with
                | Except.error e =>
                  (failResult [e],
                   [StageEvent.prepare, StageEvent.configure, StageEvent.build,
                    StageEvent.sign])
                | Except.ok signed =>
                  match w.place signed with
                  | Except.error e =>
                    (failResult [e],
                     [StageEvent.prepare, StageEvent.configure, StageEvent.build,
                      StageEvent.sign, StageEvent.place])
                  | Except.ok finalPath =>
                    ({r with apkPath := some finalPath},
                     [StageEvent.prepare, StageEvent.configure, StageEvent.build,
                      StageEvent.sign, StageEvent.place])

/-! ## WebPipeline.build and the sign stage (src/runners/web-pipeline.ts) -/

/-- src/runners/web-pipeline.ts, `build`: a failed Gradle run or a missing APK
at the expected output path each yield a distinct failed result; otherwise the
APK path is reported.  `gradle` is the surfaced `runGradle` value and
`apkAt` the `existsSync` probe of the expected output location. -/
def webPipelineBuild (gradle : GradleRes) (apkAt : String → Bool)
    (expectedApk : String) : BuildResult :=
  if !gradle.success then
    ⟨false, none, none, ["Gradle build falhou", gradle.output], [], 0⟩
  else if !apkAt expectedApk then
    ⟨false, none, none, ["APK não encontrado após build"], [], 0⟩
  else
    ⟨true, some expectedApk, none, [], [], 0⟩

/-- The keystore record a pipeline `sign` method passes to `signApk`; the
release branch copies the caller-supplied optional credential fields through
TypeScript non-null assertions, so an omitted field flows through as
`undefined` (here: `none`). -/
structure SignKeystore where
  path : Option String
  password : Option String
  keyAlias : Option String
  keyPassword : Option String
  deriving Repr, DecidableEq

/-- The debug keystore returned by `getDebugKeystore` (fixed credentials). -/
def debugKeystore (keystorePath : String) : SignKeystore :=
  ⟨some keystorePath, some "android", some "androiddebugkey", some "android"⟩

/-- The keystore selection of `WebPipeline.sign` / `ReactNativePipeline.sign` /
`MauiPipeline.sign`: the debug keystore for `signMode = debug`, otherwise the
four caller-supplied fields verbatim. -/
def pipelineSignKeystore (opts : BuildOptions) (debug : SignKeystore) : SignKeystore :=
  if opts.signMode then
    ⟨opts.keystorePath, opts.keystorePassword, opts.keyAlias, opts.keyPassword⟩
  else debug

/-- A raw spawn-argument element: with `shell: true` Node joins the argument
array with `Array.prototype.join`, which renders an `undefined` element as the
empty string. -/
def jsJoinArg : Option String → String
  | some s => s
  | none => ""

/-- JavaScript template-literal interpolation: `undefined` stringifies to
"undefined". -/
def jsTemplateStr : Option String → String
  | some s => s
  | none => "undefined"

/-- The `apksigner sign` argument list built by `signApk`
(src/generators/signing.ts).  The `--ks` and `--ks-key-alias` values are raw
array elements (an absent field joins as an empty token), while the two
password values are template literals `pass:${...}` (an absent field
interpolates as "pass:undefined").  The best-effort zipalign step that may
substitute an "-aligned" copy for `inputApk` is outside this model: the
credential positions are unaffected by it. -/
def signApkArgs (ks : SignKeystore) (inputApk outputPath : String) : List String :=
  ["sign",
   "--ks", jsJoinArg ks.path,
   "--ks-pass", "pass:" ++ jsTemplateStr ks.password,
   "--ks-key-alias", jsJoinArg ks.keyAlias,
   "--key-pass", "pass:" ++ jsTemplateStr ks.keyPassword,
   "--v2-signing-enabled", "true",
   "--v3-signing-enabled", "true",
   "--out", outputPath,
   inputApk]

/-- Split a character list at the first occurrence of `pattern`, returning the
part before it and the part after it. -/
def splitFirst (pattern : List Char) : List Char → Option (List Char × List Char)
  | [] => none
  | c :: rest =>
    if pattern.isPrefixOf (c :: rest) then some ([], (c :: rest).drop pattern.length)
    else
      match splitFirst pattern rest with
      | some (a, b) => some (c :: a, b)
      | none => none

/-- JavaScript `s.replace('.apk', '-signed.apk')`: first occurrence only. -/
def signedApkPath (s : String) : String :=
  match splitFirst ".apk".data s.data with
  | some (a, b) => String.mk (a ++ "-signed.apk".data ++ b)
  | none => s

/-- A pipeline `sign` method's action before awaiting the external signer:
the embedding exposes the possibility of a configuration error
(`Except.error`) so that its absence in the translation is a provable fact;
the source builds the keystore record and invokes `signApk` unconditionally. -/
def pipelineSign (opts : BuildOptions) (debug : SignKeystore) (apkPath : String) :
    Except String (List String) :=
  let keystore := pipelineSignKeystore opts debug
  Except.ok (signApkArgs keystore apkPath (signedApkPath apkPath))

/-! ## Helper lemmas about the detectors and the resolver -/

theorem finishDetection_some_spec {t : ProjectType} {c : Nat} {fls : List String}
    {r : DetectionResult} (h : finishDetection t c fls = some r) :
    r.type = t ∧ 0 < r.confidence ∧ r.confidence ≤ 100 := by
  unfold finishDetection at h
  split at h
  · exact absurd h (by simp)
  · next hc =>
    rw [Option.some_inj] at h
    subst h
    refine ⟨rfl, ?_, ?_⟩
    · exact lt_min (Nat.pos_of_ne_zero hc) (by norm_num)
    · exact min_le_right _ _

theorem detectWebProject_some {fs : FS} {root : String} {r : DetectionResult}
    (h : detectWebProject fs root = some r) :
    r.type = ProjectType.web ∧ 0 < r.confidence ∧ r.confidence ≤ 100 := by
  simp only [detectWebProject] at h
  split at h
  · exact absurd h (by simp)
  · exact finishDetection_some_spec h

theorem detectNdkProject_some {fs : FS} {root : String} {r : DetectionResult}
    (h : detectNdkProject fs root = some r) :
    r.type = ProjectType.ndk ∧ 0 < r.confidence ∧ r.confidence ≤ 100 := by
  simp only [detectNdkProject] at h
  exact finishDetection_some_spec h

theorem detectMauiProject_some {fs : FS} {root : String} {r : DetectionResult}
    (h : detectMauiProject fs root = some r) :
    r.type = ProjectType.maui ∧ 0 < r.confidence ∧ r.confidence ≤ 100 := by
  simp only [detectMauiProject] at h
  split at h
  · exact absurd h (by simp)
  · split at h
    · exact absurd h (by simp)
    · exact finishDetection_some_spec h

theorem detectReactNativeProject_some {fs : FS} {root : String} {r : DetectionResult}
    (h : detectReactNativeProject fs root = some r) :
    r.type = ProjectType.reactnative ∧ 0 < r.confidence ∧ r.confidence ≤ 100 := by
  simp only [detectReactNativeProject] at h
  split at h
  · exact absurd h (by simp)
  · split at h
    · exact absurd h (by simp)
    · split at h
      · exact absurd h (by simp)
      · next hbase =>
        rw [Option.some_inj] at h
        subst h
        refine ⟨rfl, ?_, ?_⟩
        · exact lt_min
            (Nat.lt_of_lt_of_le (Nat.pos_of_ne_zero hbase) (Nat.le_add_right _ _))
            (by norm_num)
        · exact min_le_right _ _

theorem detectUnityProject_some {fs : FS} {root : String} {r : DetectionResult}
    (h : detectUnityProject fs root = some r) :
    r.type = ProjectType.unity ∧ 0 < r.confidence ∧ r.confidence ≤ 100 := by
  simp only [detectUnityProject] at h
  exact finishDetection_some_spec h

theorem mem_collectResults {outcomes : List DetectorOutcome} {r : DetectionResult}
    (h : r ∈ collectResults outcomes) :
    Except.ok (some r) ∈ outcomes ∧ 0 < r.confidence := by
  induction outcomes with
  | nil => simp [collectResults] at h
  | cons o rest ih =>
    cases o with
    | error e =>
      simp only [collectResults] at h
      obtain ⟨h1, h2⟩ := ih h
      exact ⟨List.mem_cons_of_mem _ h1, h2⟩
    | ok v =>
      cases v with
      | none =>
        simp only [collectResults] at h
        obtain ⟨h1, h2⟩ := ih h
        exact ⟨List.mem_cons_of_mem _ h1, h2⟩
      | some x =>
        simp only [collectResults] at h
        split at h
        · next hpos =>
          rcases List.mem_cons.mp h with h | h
          · subst h; exact ⟨List.mem_cons_self _ _, hpos⟩
          · obtain ⟨h1, h2⟩ := ih h
            exact ⟨List.mem_cons_of_mem _ h1, h2⟩
        · obtain ⟨h1, h2⟩ := ih h
          exact ⟨List.mem_cons_of_mem _ h1, h2⟩

theorem mem_insertByConfidence {r x : DetectionResult} {l : List DetectionResult}
    (h : x ∈ insertByConfidence r l) : x = r ∨ x ∈ l := by
  induction l with
  | nil =>
    simp only [insertByConfidence, List.mem_singleton] at h
    exact Or.inl h
  | cons y ys ih =>
    simp only [insertByConfidence] at h
    split at h
    · rcases List.mem_cons.mp h with h | h
      · exact Or.inr (List.mem_cons.mpr (Or.inl h))
      · rcases ih h with h | h
        · exact Or.inl h
        · exact Or.inr (List.mem_cons.mpr (Or.inr h))
    · rcases List.mem_cons.mp h with h | h
      · exact Or.inl h
      · exact Or.inr h

theorem mem_sortByConfidence {x : DetectionResult} {l : List DetectionResult}
    (h : x ∈ sortByConfidence l) : x ∈ l := by
  induction l with
  | nil => simp [sortByConfidence] at h
  | cons y ys ih =>
    simp only [sortByConfidence] at h
    rcases mem_insertByConfidence h with h | h
    · subst h; exact List.mem_cons_self _ _
    · exact List.mem_cons_of_mem _ (ih h)

/-- Every kept detection result of the five registered detectors has a
non-`unknown`, non-`web`-unless-from-the-web-detector type, positive
confidence, and confidence at most 100. -/
theorem mem_detectorOutcomes_spec {fs : FS} {root : String} {r : DetectionResult}
    (h : r ∈ collectResults (detectorOutcomes fs root)) :
    r.type ≠ ProjectType.unknown ∧ 0 < r.confidence ∧ r.confidence ≤ 100 := by
  obtain ⟨hin, hpos⟩ := mem_collectResults h
  simp only [detectorOutcomes, List.mem_cons, List.not_mem_nil, or_false,
    Except.ok.injEq] at hin
  rcases hin with h1 | h1 | h1 | h1 | h1
  · obtain ⟨ht, _, hle⟩ := detectWebProject_some h1.symm
    exact ⟨by simp [ht], hpos, hle⟩
  · obtain ⟨ht, _, hle⟩ := detectNdkProject_some h1.symm
    exact ⟨by simp [ht], hpos, hle⟩
  · obtain ⟨ht, _, hle⟩ := detectMauiProject_some h1.symm
    exact ⟨by simp [ht], hpos, hle⟩
  · obtain ⟨ht, _, hle⟩ := detectReactNativeProject_some h1.symm
    exact ⟨by simp [ht], hpos, hle⟩
  · obtain ⟨ht, _, hle⟩ := detectUnityProject_some h1.symm
    exact ⟨by simp [ht], hpos, hle⟩

/-- Dropping a caught (thrown) detector outcome from the resolver's input. -/
theorem collectResults_append (a b : List DetectorOutcome) :
    collectResults (a ++ b) = collectResults a ++ collectResults b := by
  induction a with
  | nil => simp [collectResults]
  | cons o rest ih =>
    cases o with
    | error e => simpa [collectResults] using ih
    | ok v =>
      cases v with
      | none => simpa [collectResults] using ih
      | some x =>
        simp only [List.cons_append, collectResults]
        split <;> simp [ih]

/-- Claim C1: the resolver `detectProject` isolates detector faults.  A
detector call that throws (an `Except.error` outcome, caught by the resolver's
try/catch) contributes nothing: the resulting `ProjectInfo` is exactly the one
computed from the remaining detectors' outcomes, wherever in the registration
order the throwing detector sits.  In the embedding the resolver is a total
function, which is the never-throws half of the claim. -/
theorem detectProject_fault_isolation (root : String) (e : Unit)
    (pre post : List DetectorOutcome) :
    detectProjectFrom root (pre ++ Except.error e :: post) =
      detectProjectFrom root (pre ++ post) := by
  unfold detectProjectFrom
  rw [show Except.error e :: post = [Except.error e] ++ post from rfl,
      collectResults_append, collectResults_append, collectResults_append]
  simp [collectResults]

/-- Claim C3: every `ProjectInfo` produced by detection has confidence in
[0,100] (it is a `Nat`, so the lower bound is intrinsic), and its confidence
is 0 exactly when its type is `unknown` — for every abstract filesystem, i.e.
for arbitrarily many accumulated weighted signals. -/
theorem detectProject_confidence_invariant (fs : FS) (root : String) :
    (detectProject fs root).confidence ≤ 100 ∧
    ((detectProject fs root).confidence = 0 ↔
      (detectProject fs root).type = ProjectType.unknown) := by
  unfold detectProject detectProjectFrom
  cases hs : sortByConfidence (collectResults (detectorOutcomes fs root)) with
  | nil => simp
  | cons best rest =>
    have hb : best ∈ collectResults (detectorOutcomes fs root) :=
      mem_sortByConfidence (by rw [hs]; exact List.mem_cons_self _ _)
    obtain ⟨hunk, hpos, hle⟩ := mem_detectorOutcomes_spec hb
    refine ⟨hle, ?_, ?_⟩
    · intro h0
      exact absurd h0 (Nat.pos_iff_ne_zero.mp hpos)
    · intro ht
      exact absurd ht hunk

/-- The web detector yields to the react-native detector: a parsed
package.json carrying a react-native or expo dependency makes it return
`null` regardless of any other web evidence. -/
theorem detectWebProject_yields_on_rn_dep {fs : FS} {root : String} {pkg : Pkg}
    (hex : fs.pathExists (pjoin root "package.json") = true)
    (hpkg : fs.pkgJson (pjoin root "package.json") = some pkg)
    (hdep : pkg.hasDep "react-native" = true ∨ pkg.hasDep "expo" = true) :
    detectWebProject fs root = none := by
  rcases hdep with hdep | hdep
  · simp [detectWebProject, hex, hpkg, hdep]
  · by_cases hrn : pkg.hasDep "react-native" = true
    · simp [detectWebProject, hex, hpkg, hrn]
    · simp [detectWebProject, hex, hpkg, hrn, hdep]

/-- Claim C2 (amended): a project whose package.json lists react-native or
expo among dependencies or devDependencies gets no Web candidate — the web
detector returns `null` — and therefore the resolver never classifies such a
project (in particular one that also contains an index.html) as the Web type.
(The original claim's stronger conclusion that such a project always resolves
to the React Native type fails; see the counterexample.) -/
theorem detectProject_rn_dep_never_web {fs : FS} {root : String} {pkg : Pkg}
    (hex : fs.pathExists (pjoin root "package.json") = true)
    (hpkg : fs.pkgJson (pjoin root "package.json") = some pkg)
    (hdep : pkg.hasDep "react-native" = true ∨ pkg.hasDep "expo" = true) :
    detectWebProject fs root = none ∧
    (detectProject fs root).type ≠ ProjectType.web := by
  refine ⟨detectWebProject_yields_on_rn_dep hex hpkg hdep, ?_⟩
  unfold detectProject detectProjectFrom
  cases hs : sortByConfidence (collectResults (detectorOutcomes fs root)) with
  | nil => simp
  | cons best rest =>
    have hb : best ∈ collectResults (detectorOutcomes fs root) :=
      mem_sortByConfidence (by rw [hs]; exact List.mem_cons_self _ _)
    obtain ⟨hin, _⟩ := mem_collectResults hb
    simp only [detectorOutcomes, List.mem_cons, List.not_mem_nil, or_false,
      Except.ok.injEq] at hin
    rcases hin with h1 | h1 | h1 | h1 | h1
    · rw [detectWebProject_yields_on_rn_dep hex hpkg hdep] at h1
      exact absurd h1 (by simp)
    · obtain ⟨ht, _, _⟩ := detectNdkProject_some h1.symm
      simp [ht]
    · obtain ⟨ht, _, _⟩ := detectMauiProject_some h1.symm
      simp [ht]
    · obtain ⟨ht, _, _⟩ := detectReactNativeProject_some h1.symm
      simp [ht]
    · obtain ⟨ht, _, _⟩ := detectUnityProject_some h1.symm
      simp [ht]

/-- Concrete project for the C2 counterexample: a react-native dependency and
an index.html, but also a Unity ProjectSettings directory with its asset file
(worth 60 confidence, beating react-native's 50). -/
def cxPkg : Pkg := ⟨["react-native"], []⟩

/-- Existing paths of the counterexample project. -/
def cxPaths : List String :=
  ["R/package.json", "R/index.html", "R/ProjectSettings",
   "R/ProjectSettings/ProjectSettings.asset"]

/-- Abstract filesystem of the C2 counterexample project. -/
def cxFS : FS :=
  ⟨fun p => cxPaths.contains p,
   fun _ _ => some [],
   fun p => if p = "R/package.json" then some cxPkg else none,
   fun _ => none,
   fun _ => none⟩

set_option maxRecDepth 4000 in
/-- Claim C2 counterexample: this project satisfies every premise of the claim
(its package.json lists react-native, and it contains an index.html), yet
`detectProject` classifies it as `unity`, not `reactnative` — the Unity
markers outscore the react-native signals (60 vs 50). -/
theorem detectProject_rn_dep_not_always_reactnative_cx :
    cxFS.pathExists (pjoin "R" "package.json") = true ∧
    cxFS.pkgJson (pjoin "R" "package.json") = some cxPkg ∧
    cxPkg.hasDep "react-native" = true ∧
    cxFS.pathExists (pjoin "R" "index.html") = true ∧
    (detectProject cxFS "R").type = ProjectType.unity ∧
    (detectProject cxFS "R").type ≠ ProjectType.reactnative := by
  refine ⟨by decide, by decide, by decide, by decide, ?_, ?_⟩ <;> decide

/-- Witness for the amended C2 theorem at the counterexample project. -/
theorem detectProject_rn_dep_never_web_witness :
    detectWebProject cxFS "R" = none ∧
    (detectProject cxFS "R").type ≠ ProjectType.web :=
  @detectProject_rn_dep_never_web cxFS "R" cxPkg (by decide) (by decide)
    (Or.inl (by decide))

/-- The push-accumulate loop of `verifyEnvironment` computes exactly the
names of the checks whose path fails the existence probe. -/
theorem missingLoop_eq_filterMap (ex : String → Bool) (checks : List (String × String)) :
    missingLoop ex checks =
      checks.filterMap (fun c => if ex c.2 then none else some c.1) := by
  induction checks with
  | nil => simp [missingLoop]
  | cons c rest ih =>
    simp only [missingLoop, List.filterMap_cons]
    split <;> simp [ih]

/-- `valid` is the emptiness of `missing`. -/
theorem verifyEnvironment_valid_iff (ex : String → Bool) (env : OfflineEnvironment) :
    (verifyEnvironment ex env).valid = true ↔ (verifyEnvironment ex env).missing = [] := by
  simp [verifyEnvironment, List.length_eq_zero]

/-- A checked toolchain root that fails the existence probe puts its role name
into `missing`. -/
theorem mem_missing_of_check_fails {ex : String → Bool} {env : OfflineEnvironment}
    {c : String × String} (hc : c ∈ envChecks env) (hex : ex c.2 = false) :
    c.1 ∈ (verifyEnvironment ex env).missing := by
  show c.1 ∈ missingLoop ex (envChecks env)
  rw [missingLoop_eq_filterMap]
  exact List.mem_filterMap.mpr ⟨c, hc, by simp [hex]⟩

/-- Claim C9 (amended): `verifyEnvironment` returns `valid = true` iff its
`missing` list is empty, and `missing` is computed by an existence check alone
(no deeper version validation) against the six checked toolchain roots —
JDK, Android SDK, Android NDK, Gradle cache, Node.js and dotnet SDK.  (The
original claim's "each of the configured toolchain roots of the
OfflineEnvironment mapping" fails: GRADLE_HOME, NPM_CONFIG_CACHE and
UNITY_PATH are never checked; see the counterexample.) -/
theorem verifyEnvironment_spec (ex : String → Bool) (env : OfflineEnvironment) :
    ((verifyEnvironment ex env).valid = true ↔ (verifyEnvironment ex env).missing = []) ∧
    (verifyEnvironment ex env).missing =
      (envChecks env).filterMap (fun c => if ex c.2 then none else some c.1) :=
  ⟨verifyEnvironment_valid_iff ex env, missingLoop_eq_filterMap ex (envChecks env)⟩

/-- Environment of the C9 counterexample: every root exists on disk except the
Unity editor root. -/
def cxEnv : OfflineEnvironment :=
  ⟨"b/jdk", "b/android-sdk", "b/ndk/r26", "b/gradle-cache", "b/gradle/8.5",
   "b/dotnet", "b/node", "b/npm-cache", "b/unity"⟩

/-- Disk oracle of the C9 counterexample. -/
def cxDisk : String → Bool := fun p => !(p == "b/unity")

/-- Claim C9 counterexample: with every root present except the configured
UNITY_PATH root, `verifyEnvironment` still reports `valid = true` with an
empty `missing` list — so `missing` is not computed against each configured
toolchain root of the `OfflineEnvironment` mapping, only against six of the
nine. -/
theorem verifyEnvironment_unity_root_unchecked_cx :
    cxDisk cxEnv.UNITY_PATH = false ∧
    (verifyEnvironment cxDisk cxEnv).valid = true ∧
    (verifyEnvironment cxDisk cxEnv).missing = [] := by
  refine ⟨by decide, ?_, ?_⟩ <;> decide

/-- Claim C4: a build request against an environment in which at least one
required (checked) toolchain root does not exist returns `success:false`, an
error string naming the missing roles (the comma-joined `missing` list), and
no pipeline stage is ever invoked (the stage trace is empty). -/
theorem orchestrator_missing_env_blocks_build (w : OrchWorld) (root : String)
    (h : ∃ c ∈ envChecks w.env, w.diskExists c.2 = false) :
    (orchestratorBuild w root).1.success = false ∧
    (orchestratorBuild w root).2 = [] ∧
    (orchestratorBuild w root).1.errors =
      ["SDKs faltando: " ++
        String.intercalate ", " (verifyEnvironment w.diskExists w.env).missing] ∧
    (verifyEnvironment w.diskExists w.env).missing ≠ [] := by
  obtain ⟨c, hc, hex⟩ := h
  have hne : (verifyEnvironment w.diskExists w.env).missing ≠ [] :=
    List.ne_nil_of_mem (mem_missing_of_check_fails hc hex)
  have hvalid : (verifyEnvironment w.diskExists w.env).valid = false := by
    cases hb : (verifyEnvironment w.diskExists w.env).valid with
    | false => rfl
    | true => exact absurd ((verifyEnvironment_valid_iff _ _).mp hb) hne
  refine ⟨?_, ?_, ?_, hne⟩ <;> simp [orchestratorBuild, hvalid, failResult]

/-- Build world for the C4 witness: no toolchain root exists on disk. -/
def cxWorld4 : OrchWorld :=
  ⟨fun _ => false, cxEnv, cxFS, fun _ => none, fun _ => Except.error "no place"⟩

/-- Witness for C4: the all-missing environment blocks the build with an
empty stage trace and the missing-SDKs error. -/
theorem orchestrator_missing_env_blocks_build_witness :
    (orchestratorBuild cxWorld4 "R").1.success = false ∧
    (orchestratorBuild cxWorld4 "R").2 = [] ∧
    (orchestratorBuild cxWorld4 "R").1.errors =
      ["SDKs faltando: " ++
        String.intercalate ", " (verifyEnvironment cxWorld4.diskExists cxWorld4.env).missing] ∧
    (verifyEnvironment cxWorld4.diskExists cxWorld4.env).missing ≠ [] :=
  orchestrator_missing_env_blocks_build cxWorld4 "R"
    ⟨("JDK", "b/jdk"), by decide, by decide⟩

/-- A failed `WebPipeline.build` result never carries an apkPath: both failure
branches (failed Gradle run, missing APK) construct the result without one. -/
theorem webPipelineBuild_failure_no_apk (g : GradleRes) (apkAt : String → Bool)
    (expectedApk : String) (h : (webPipelineBuild g apkAt expectedApk).success = false) :
    (webPipelineBuild g apkAt expectedApk).apkPath = none := by
  cases hg : g.success
  · simp [webPipelineBuild, hg]
  · cases ha : apkAt expectedApk
    · simp [webPipelineBuild, hg, ha]
    · simp [webPipelineBuild, hg, ha] at h

/-- Claim C5: when the pipeline's build stage completes with `success:false`,
the orchestrator returns that result as-is: `sign` and output placement are
never invoked (the stage trace ends at `build`), and the returned result's
apkPath is the pipeline's own — which for `WebPipeline.build` failures is
always absent. -/
theorem orchestrator_build_failure_short_circuit (w : OrchWorld) (root : String)
    (p : PipelineBehavior) (r : BuildResult)
    (hvalid : (verifyEnvironment w.diskExists w.env).valid = true)
    (hunk : (detectProject w.fs root).type ≠ ProjectType.unknown)
    (hp : w.pipelines (detectProject w.fs root).type = some p)
    (hprep : p.prepare = Except.ok ())
    (hconf : p.configure = Except.ok ())
    (hbuild : p.build = Except.ok r)
    (hfail : r.success = false) :
    (orchestratorBuild w root).1 = r ∧
    (orchestratorBuild w root).2 =
      [StageEvent.prepare, StageEvent.configure, StageEvent.build] ∧
    StageEvent.sign ∉ (orchestratorBuild w root).2 ∧
    StageEvent.place ∉ (orchestratorBuild w root).2 ∧
    (orchestratorBuild w root).1.apkPath = r.apkPath ∧
    (∀ g apkAt expectedApk, (webPipelineBuild g apkAt expectedApk).success = false →
      (webPipelineBuild g apkAt expectedApk).apkPath = none) := by
  have hres : orchestratorBuild w root =
      (r, [StageEvent.prepare, StageEvent.configure, StageEvent.build]) := by
    simp [orchestratorBuild, hvalid, hunk, hp, hprep, hconf, hbuild, hfail]
  refine ⟨by rw [hres], by rw [hres], ?_, ?_, by rw [hres], ?_⟩
  · rw [hres]; simp
  · rw [hres]; simp
  · intro g apkAt expectedApk h
    exact webPipelineBuild_failure_no_apk g apkAt expectedApk h

/-- Project filesystem of the C5 witness: only a CMakeLists.txt, so detection
yields the `ndk` type. -/
def cxNdkFS : FS :=
  ⟨fun p => p == "P/CMakeLists.txt", fun _ _ => some [],
   fun _ => none, fun _ => none, fun _ => none⟩

/-- The failed build-stage result of the C5 witness. -/
def cxFailedBuild : BuildResult :=
  ⟨false, none, none, ["Gradle build falhou", "boom"], [], 0⟩

/-- Pipeline behavior of the C5 witness: prepare and configure complete, the
build stage reports failure. -/
def cxPipeline5 : PipelineBehavior :=
  ⟨Except.ok (), Except.ok (), Except.ok cxFailedBuild, fun s => Except.ok s⟩

/-- Build world of the C5 witness. -/
def cxWorld5 : OrchWorld :=
  ⟨fun _ => true, cxEnv, cxNdkFS,
   fun t => if t = ProjectType.ndk then some cxPipeline5 else none,
   fun s => Except.ok s⟩

set_option maxRecDepth 4000 in
/-- Witness for C5 at a concrete failing build. -/
theorem orchestrator_build_failure_short_circuit_witness :
    (orchestratorBuild cxWorld5 "P").1 = cxFailedBuild ∧
    (orchestratorBuild cxWorld5 "P").2 =
      [StageEvent.prepare, StageEvent.configure, StageEvent.build] ∧
    StageEvent.sign ∉ (orchestratorBuild cxWorld5 "P").2 ∧
    StageEvent.place ∉ (orchestratorBuild cxWorld5 "P").2 ∧
    (orchestratorBuild cxWorld5 "P").1.apkPath = cxFailedBuild.apkPath ∧
    (∀ g apkAt expectedApk, (webPipelineBuild g apkAt expectedApk).success = false →
      (webPipelineBuild g apkAt expectedApk).apkPath = none) :=
  orchestrator_build_failure_short_circuit cxWorld5 "P" cxPipeline5 cxFailedBuild
    (by decide) (by decide) rfl rfl rfl rfl rfl

/-- Claim C7: the orchestrator always produces a terminal `BuildResult` (in
the embedding `orchestratorBuild` is a total function, and every stage that
throws is converted into a single-error result by the modelled top-level
catch); provided the selected pipeline's failed build results carry at least
one error string — as all concrete pipelines' do — every failed orchestrator
result carries at least one error string. -/
theorem orchestrator_failure_has_error (w : OrchWorld) (root : String)
    (hbe : ∀ t p r, w.pipelines t = some p → p.build = Except.ok r →
      r.success = false → r.errors ≠ []) :
    (orchestratorBuild w root).1.success = false →
    (orchestratorBuild w root).1.errors ≠ [] := by
  simp only [orchestratorBuild]
  split
  · intro _; simp [failResult]
  · split
    · intro _; simp [failResult]
    · split
      · intro _; simp [failResult]
      · next p hp =>
        split
        · intro _; simp [failResult]
        · split
          · intro _; simp [failResult]
          · split
            · intro _; simp [failResult]
            · next r hr =>
              split
              · next hfail =>
                intro _
                exact hbe _ p r hp hr (by simpa using hfail)
              · next hsucc =>
                split
                · intro _; simp [failResult]
                · split
                  · intro _; simp [failResult]
                  · intro habs
                    simp at habs
                    simp [habs] at hsucc

/-- Witness for C7: the all-missing environment world yields a failed result
with a non-empty error list (the pipeline hypothesis is vacuous there). -/
theorem orchestrator_failure_has_error_witness :
    (orchestratorBuild cxWorld4 "R").1.errors ≠ [] :=
  orchestrator_failure_has_error cxWorld4 "R"
    (fun t p r h => by simp [cxWorld4] at h) (by decide)

/-- Claim C6: `runGradle` derives its argument list from the connectivity
probe before the first invocation (the first invoked argument list is a
function of `isOnline`); absent connectivity forces `--offline` onto the
single invocation; a network-aware invocation that throws while connectivity
had been present is retried exactly once with `--offline` appended and the
retry's outcome is surfaced; a completed first invocation is never retried;
and no call sequence ever exceeds two invocations. -/
theorem runGradle_connectivity_fallback
    (runner : List String → Except String CmdResult)
    (dns : Except Unit Unit) (task : String) :
    ((runGradle runner dns task).2.head? = some (gradleArgs task (isOnline dns))) ∧
    (isOnline dns = false →
      (runGradle runner dns task).2 = [gradleArgs task false] ∧
      "--offline" ∈ gradleArgs task false) ∧
    (∀ r, runner (gradleArgs task (isOnline dns)) = Except.ok r →
      (runGradle runner dns task).2 = [gradleArgs task (isOnline dns)] ∧
      (runGradle runner dns task).1 =
        surfaceGradle (runner (gradleArgs task (isOnline dns)))) ∧
    (∀ e, isOnline dns = true → task ≠ "--offline" →
      runner (gradleArgs task true) = Except.error e →
      (runGradle runner dns task).2 =
        [gradleArgs task true, gradleArgs task true ++ ["--offline"]] ∧
      (runGradle runner dns task).1 =
        surfaceGradle (runner (gradleArgs task true ++ ["--offline"]))) ∧
    (runGradle runner dns task).2.length ≤ 2 := by
  cases hon : isOnline dns with
  | false =>
    cases hr : runner (gradleArgs task false) with
    | ok r =>
      refine ⟨?_, ?_, ?_, ?_, ?_⟩
      · simp [runGradle, hon, hr]
      · intro _; exact ⟨by simp [runGradle, hon, hr], by simp [gradleArgs]⟩
      · intro r2 hr2
        exact ⟨by simp [runGradle, hon, hr], by simp [runGradle, hon, hr]⟩
      · intro e honline
        exact absurd honline (by simp [hon])
      · simp [runGradle, hon, hr]
    | error e =>
      refine ⟨?_, ?_, ?_, ?_, ?_⟩
      · simp [runGradle, hon, hr]
      · intro _; exact ⟨by simp [runGradle, hon, hr], by simp [gradleArgs]⟩
      · intro r2 hr2
        exact absurd hr2 (by simp)
      · intro e2 honline
        exact absurd honline (by simp [hon])
      · simp [runGradle, hon, hr]
  | true =>
    cases hr : runner (gradleArgs task true) with
    | ok r =>
      refine ⟨?_, ?_, ?_, ?_, ?_⟩
      · simp [runGradle, hon, hr]
      · intro hoff; exact absurd hoff (by simp [hon])
      · intro r2 hr2
        exact ⟨by simp [runGradle, hon, hr], by simp [runGradle, hon, hr]⟩
      · intro e _ _ habs
        exact absurd habs (by simp)
      · simp [runGradle, hon, hr]
    | error e =>
      refine ⟨?_, ?_, ?_, ?_, ?_⟩
      · simp [runGradle, hon, hr]
      · intro hoff; exact absurd hoff (by simp [hon])
      · intro r2 hr2
        exact absurd hr2 (by simp)
      · intro e2 _ hne _
        have hmem : "--offline" ∉ gradleArgs task true := by
          simp [gradleArgs]
          exact fun h => hne h.symm
        constructor
        · simp [runGradle, hon, hr, hmem]
        · simp [runGradle, hon, hr, hmem]
      · simp [runGradle, hon, hr]

/-- Runner of the C6 witness: any invocation without `--offline` throws (a
transient registry failure); with `--offline` it completes with exit code 0. -/
def cxRunner : List String → Except String CmdResult :=
  fun a => if a.contains "--offline" then Except.ok ⟨"", "", 0⟩
           else Except.error "net down"

/-- Witness for C6: online probe, throwing network-aware run, single offline
retry whose outcome is surfaced. -/
theorem runGradle_connectivity_fallback_witness :
    isOnline (Except.ok ()) = true ∧
    (runGradle cxRunner (Except.ok ()) "assembleDebug").2 =
      [gradleArgs "assembleDebug" true, gradleArgs "assembleDebug" true ++ ["--offline"]] ∧
    (runGradle cxRunner (Except.ok ()) "assembleDebug").1 =
      surfaceGradle (cxRunner (gradleArgs "assembleDebug" true ++ ["--offline"])) := by
  have h := (runGradle_connectivity_fallback cxRunner (Except.ok ()) "assembleDebug").2.2.2.1
      "net down" rfl (by decide) rfl
  exact ⟨rfl, h.1, h.2⟩

/-- Claim C10: `runCommand` never rejects — a spawn `error` event resolves
with exit code 1 and the error message appended to the captured stderr, and a
`close` event that delivers a null exit code (signal termination) resolves
with code 0, making it indistinguishable from a genuine zero exit. -/
theorem runCommand_resolution_spec (outs errs : List String) (msg : String) :
    (runCommand (ProcOutcome.spawnError outs errs msg)).code = 1 ∧
    (runCommand (ProcOutcome.spawnError outs errs msg)).stderr = String.join errs ++ msg ∧
    (runCommand (ProcOutcome.closed outs errs none)).code = 0 ∧
    runCommand (ProcOutcome.closed outs errs none) =
      runCommand (ProcOutcome.closed outs errs (some 0)) := by
  refine ⟨rfl, rfl, rfl, ?_⟩
  simp [runCommand, jsCodeOrZero]

/-- Release options with all four credential fields omitted, for the C8
counterexample. -/
def cxOpts : BuildOptions := ⟨"App", "com.example.app", true, none, none, none, none⟩

/-- Claim C8 counterexample: with `signMode = release` and all four credential
fields omitted, the sign stage raises no configuration error — it proceeds to
the signer invocation, where the two password template literals interpolate as
"pass:undefined" and the raw `--ks` / `--ks-key-alias` elements join as empty
tokens. -/
theorem sign_release_missing_creds_cx :
    cxOpts.signMode = true ∧
    cxOpts.keystorePath = none ∧ cxOpts.keystorePassword = none ∧
    cxOpts.keyAlias = none ∧ cxOpts.keyPassword = none ∧
    pipelineSign cxOpts (debugKeystore "dk/debug.keystore") "app.apk" =
      Except.ok (signApkArgs ⟨none, none, none, none⟩ "app.apk" "app-signed.apk") ∧
    "pass:undefined" ∈ signApkArgs ⟨none, none, none, none⟩ "app.apk" "app-signed.apk" ∧
    "" ∈ signApkArgs ⟨none, none, none, none⟩ "app.apk" "app-signed.apk" := by
  have hpath : signedApkPath "app.apk" = "app-signed.apk" := by decide
  refine ⟨rfl, rfl, rfl, rfl, rfl, ?_, ?_, ?_⟩
  · simp [pipelineSign, pipelineSignKeystore, cxOpts, hpath]
  · decide
  · decide

/-- Claim C8 (amended): for `signMode = release` the keystore record passed to
the signer is exactly the four caller-supplied credential fields; omission of
any of them is not detected at the sign stage — the sign step unconditionally
proceeds to the signer invocation (never a configuration error), the absent
password fields interpolating as "pass:undefined" and the raw keystore-path
and alias arguments joining as empty tokens. -/
theorem sign_release_uses_caller_credentials (opts : BuildOptions)
    (debug : SignKeystore) (apk : String) (hrel : opts.signMode = true) :
    pipelineSignKeystore opts debug =
      ⟨opts.keystorePath, opts.keystorePassword, opts.keyAlias, opts.keyPassword⟩ ∧
    pipelineSign opts debug apk =
      Except.ok (signApkArgs
        ⟨opts.keystorePath, opts.keystorePassword, opts.keyAlias, opts.keyPassword⟩
        apk (signedApkPath apk)) := by
  constructor <;> simp [pipelineSignKeystore, pipelineSign, hrel]

/-- Release options with all four credential fields supplied, for the C8
witness. -/
def cxRelOpts : BuildOptions :=
  ⟨"App", "com.x.a", true, some "ks.jks", some "pw", some "alias-a", some "kpw"⟩

/-- Witness for the amended C8 theorem at concrete release options. -/
theorem sign_release_uses_caller_credentials_witness :
    pipelineSignKeystore cxRelOpts (debugKeystore "dk") =
      ⟨cxRelOpts.keystorePath, cxRelOpts.keystorePassword,
       cxRelOpts.keyAlias, cxRelOpts.keyPassword⟩ ∧
    pipelineSign cxRelOpts (debugKeystore "dk") "a.apk" =
      Except.ok (signApkArgs
        ⟨cxRelOpts.keystorePath, cxRelOpts.keystorePassword,
         cxRelOpts.keyAlias, cxRelOpts.keyPassword⟩
        "a.apk" (signedApkPath "a.apk")) :=
  sign_release_uses_caller_credentials cxRelOpts (debugKeystore "dk") "a.apk" rfl

end ApkBuilder
